import Mathlib

/-!
Verification of the Mova-ai session synchronization engine.

Shallow embedding of the session-state / sync logic of the repository:
  * the cloud-collaboration variant of the App component (the file that also
    declares the shared types; onSnapshot handler, syncCanvasToCloud,
    handleSendMessage, switchMode, resetSession),
  * the local variant (App.tsx: isDocMode canvas-overwrite chunk step),
  * the debounced editor (components/CreativeCanvas.tsx: handleTextChange).

External collaborators (Firestore, the generation backend, timers) are
modelled at their interface boundary: store calls are recorded as events in a
trace and their success is an input; the token stream is a list of chunks with
an optional trailing error; timer scheduling is an explicit event sequence.
-/

namespace Mova

/-- CreativeMode enum (types.ts). -/
inductive CreativeMode where
  | GENERAL
  | SONG
  | SCRIPT
  | STORY
  | IMAGE_PROMPT
  | QA
deriving DecidableEq

/-- Message author role ('user' | 'assistant', types.ts). -/
inductive Role where
  | user
  | assistant
deriving DecidableEq

/-- Message record (types.ts).  The Date timestamp is modelled as a Nat tick;
the Firestore-timestamp-to-Date normalization performed by the snapshot
listener is identity in this model. -/
structure Message where
  id : String
  role : Role
  content : String
  mode : CreativeMode
  timestamp : Nat
  imageUrl : Option String := none
  attachmentUrl : Option String := none
deriving DecidableEq

/-- ChatSession record (types.ts; the collaboration variant adds the shared
canvasContent field). -/
structure ChatSession where
  id : String
  title : String
  messages : List Message
  currentMode : CreativeMode
  canvasContent : String
deriving DecidableEq

/-- Sync status ('synced' | 'syncing' | 'idle'). -/
inductive SyncStatus where
  | idle
  | syncing
  | synced
deriving DecidableEq

/-- The React component state that the sync engine touches: the session,
the sync status, the echo-suppression ref (skipNextSyncRef) and the
isLoading flag.  UI-only state (sidebar, view mode, profile menu, pending
refinement) is omitted: no modelled transition reads it. -/
structure AppState where
  session : ChatSession
  syncStatus : SyncStatus
  skipNextSyncRef : Bool
  isLoading : Bool
deriving DecidableEq

/-- JavaScript truthy-or on strings: `a || b` falls back when `a` is the
empty string (falsy). -/
def jsOr (a b : String) : String := if a = "" then b else a

/-- JavaScript `a || b` where `a` may be absent (undefined). -/
def jsOrOpt (a : Option String) (b : String) : String :=
  match a with
  | none => b
  | some x => jsOr x b

/-- Echo Suppression Guard, arm: `skipNextSyncRef.current = true`
(the line immediately before the updateDoc call in syncCanvasToCloud). -/
def armGuard (s : AppState) : AppState := { s with skipNextSyncRef := true }

/-- Echo Suppression Guard, consume: the read-and-clear performed by the
remote notification handler (`if (skipNextSyncRef.current) {
skipNextSyncRef.current = false; ... }`).  Clearing an already-clear flag is
the identity, so unconditional clearing matches the source's conditional
clear. -/
def consumeGuard (s : AppState) : Bool × AppState :=
  (s.skipNextSyncRef, { s with skipNextSyncRef := false })

/-- Data carried by an existing remote snapshot, as read by the onSnapshot
handler: `data.title`, `data.currentMode`, `data.canvasContent` may each be
absent; `data.messages || []` is normalized to a message list. -/
structure SnapshotData where
  title : Option String
  currentMode : Option CreativeMode
  canvasContent : Option String
  messages : List Message
deriving DecidableEq

/-- The patch the snapshot listener builds when the flag is clear:
title and currentMode use `||` fallback, canvasContent uses `??`
(nullish only), and messages is a wholesale replacement by the remote list. -/
def mergeSnapshot (d : SnapshotData) (c : ChatSession) : ChatSession :=
  { c with
    title := jsOrOpt d.title c.title
    currentMode := d.currentMode.getD c.currentMode
    canvasContent := d.canvasContent.getD c.canvasContent
    messages := d.messages }

/-- The onSnapshot handler for an existing session document: the setSession
updater consumes the echo flag and either keeps the previous session (echo
discarded) or merges the remote patch; `setSyncStatus('synced')` then runs
unconditionally, outside the updater. -/
def applySnapshotExists (d : SnapshotData) (s : AppState) : AppState :=
  let r := consumeGuard s
  let s1 := if r.1 then r.2 else { r.2 with session := mergeSnapshot d s.session }
  { s1 with syncStatus := SyncStatus.synced }

/-- Store-interaction events, recorded in the order the client issues them.
arm is the guard write `skipNextSyncRef.current = true`; the others are the
Firestore calls with their target document id and payload. -/
inductive Ev where
  | arm
  | updateDocMessages (target : String) (msgs : List Message)
  | updateDocCanvas (target : String) (content : String)
  | updateDocMode (target : String) (mode : CreativeMode)
  | setDocSeed (target : String)
deriving DecidableEq

/-- Whether an event is a write call to the shared store. -/
def Ev.isWrite : Ev → Bool
  | Ev.arm => false
  | _ => true

/-- Every store write in the trace is preceded by an arm of the guard
(the accumulator argument carries whether an arm has been seen). -/
def writesArmedB (armed : Bool) : List Ev → Bool
  | [] => true
  | Ev.arm :: tl => writesArmedB true tl
  | e :: tl => (!e.isWrite || armed) && writesArmedB armed tl

/-- syncCanvasToCloud: early-returns when no user or no session id, sets
syncStatus syncing, arms the guard, issues the canvas updateDoc, and
sets syncStatus synced on success or idle on failure (the catch block). -/
def syncCanvasToCloud (userPresent : Bool) (storeOk : Bool)
    (newContent : String) (s : AppState) : AppState × List Ev :=
  if !userPresent || s.session.id == "" then (s, [])
  else
    let s1 := { s with syncStatus := SyncStatus.syncing }
    let s2 := armGuard s1
    let tr := [Ev.arm, Ev.updateDocCanvas s.session.id newContent]
    if storeOk then ({ s2 with syncStatus := SyncStatus.synced }, tr)
    else ({ s2 with syncStatus := SyncStatus.idle }, tr)

/-- switchMode: patches the mode locally, then (when a user is present)
issues an unguarded updateDoc of the mode; a store failure rejects the
returned promise (view-mode side effects are UI-only and omitted). -/
def switchMode (userPresent : Bool) (storeOk : Bool) (storeErr : String)
    (mode : CreativeMode) (s : AppState) :
    Except String Unit × AppState × List Ev :=
  let s1 := { s with session := { s.session with currentMode := mode } }
  if userPresent then
    if storeOk then (Except.ok (), s1, [Ev.updateDocMode s.session.id mode])
    else (Except.error storeErr, s1, [Ev.updateDocMode s.session.id mode])
  else (Except.ok (), s1, [])

/-- resetSession: replaces the session with a fresh one under a new id
(history/pushState and UI state omitted). -/
def resetSession (newId : String) (s : AppState) : AppState :=
  { s with session :=
    { id := newId, title := "New Creative Session", messages := [],
      currentMode := CreativeMode.GENERAL, canvasContent := "" } }

/-- User-supplied attachment (data url and mime type). -/
structure Attachment where
  data : String
  type : String
deriving DecidableEq

/-- Result of the image-generation collaborator. -/
structure ImageResult where
  imageUrl : Option String
  textContent : String
deriving DecidableEq

deriving instance DecidableEq for Except

/-- Behaviour of the external collaborators during one handleSendMessage
call: whether store writes succeed (and the rejection message when not),
the outcome of generateMovaImage, the outcome of obtaining the stream from
streamMovaContent, the chunk texts the stream yields, and an optional error
the stream throws after its last chunk. -/
structure Collab where
  storeOk : Bool
  storeErr : String
  imageResult : Except String ImageResult
  streamInit : Except String Unit
  chunks : List String
  streamErr : Option String
deriving DecidableEq

/-- Fresh identifiers and the clock for one handleSendMessage call
(uuidv4() and new Date() draws), plus whether a user is signed in. -/
structure GenEnv where
  userPresent : Bool
  userMsgId : String
  assistantId : String
  errorMsgId : String
  now : Nat
deriving DecidableEq

/-- The human message handleSendMessage constructs:
`content: text || (attachment ? "Refine this image..." : "")`. -/
def mkUserMessage (env : GenEnv) (text : String) (attachment : Option Attachment)
    (mode : CreativeMode) : Message :=
  { id := env.userMsgId, role := Role.user,
    content := jsOr text (if attachment.isSome then "Refine this image..." else ""),
    mode := mode, timestamp := env.now,
    imageUrl := none, attachmentUrl := attachment.map (·.data) }

/-- The empty streaming placeholder assistant message. -/
def mkPlaceholder (env : GenEnv) (mode : CreativeMode) : Message :=
  { id := env.assistantId, role := Role.assistant, content := "",
    mode := mode, timestamp := env.now }

/-- One iteration of the streaming for-await body after the accumulator has
grown to content: `prev.messages.map(m => m.id === assistantId ?
{ ...m, content: assistantContent } : m)`. -/
def chunkStep (assistantId content : String) (s : AppState) : AppState :=
  { s with session := { s.session with
      messages := s.session.messages.map (fun m =>
        if m.id == assistantId then { m with content := content } else m) } }

/-- The streaming loop, observed per iteration: it returns the successive
(accumulated content, component state) pairs, one per consumed chunk.
The loop suspends awaiting each chunk; resetAt = some (k, newId) injects a
resetSession newId at that suspension point, i.e. before the chunk with
index k is processed (the source's reset does not stop the iterator, so the
loop keeps consuming).  The loop body issues no store calls. -/
def runChunksStates (aid : String) :
    Option (Nat × String) → Nat → String → List String → AppState →
    List (String × AppState)
  | _, _, _, [], _ => []
  | some (k, newId), i, acc, c :: rest, s =>
    if i = k then
      let s0 := resetSession newId s
      let acc1 := acc ++ c
      let s1 := chunkStep aid acc1 s0
      (acc1, s1) :: runChunksStates aid none (i + 1) acc1 rest s1
    else
      let acc1 := acc ++ c
      let s1 := chunkStep aid acc1 s
      (acc1, s1) :: runChunksStates aid (some (k, newId)) (i + 1) acc1 rest s1
  | none, i, acc, c :: rest, s =>
    let acc1 := acc ++ c
    let s1 := chunkStep aid acc1 s
    (acc1, s1) :: runChunksStates aid none (i + 1) acc1 rest s1

/-- The streaming loop as handleSendMessage consumes it: accumulator
content and component state once the stream is exhausted (the same
recursion as runChunksStates, returning only the final pair). -/
def runChunks (aid : String) :
    Option (Nat × String) → Nat → String → List String → AppState →
    String × AppState
  | _, _, acc, [], s => (acc, s)
  | some (k, newId), i, acc, c :: rest, s =>
    if i = k then
      let acc1 := acc ++ c
      let s1 := chunkStep aid acc1 (resetSession newId s)
      runChunks aid none (i + 1) acc1 rest s1
    else
      let acc1 := acc ++ c
      let s1 := chunkStep aid acc1 s
      runChunks aid (some (k, newId)) (i + 1) acc1 rest s1
  | none, i, acc, c :: rest, s =>
    let acc1 := acc ++ c
    let s1 := chunkStep aid acc1 s
    runChunks aid none (i + 1) acc1 rest s1

/-- The catch block of handleSendMessage: builds the error assistant message
from the thrown error's message, writes the captured transcript plus that
message to the captured document ref, and (finally) clears isLoading; the
local session is not updated here.  If that updateDoc itself rejects, the
rejection escapes handleSendMessage. -/
def catchBlock (env : GenEnv) (collab : Collab) (mode : CreativeMode)
    (docId : String) (updatedMessages : List Message) (tr : List Ev)
    (e : String) (s : AppState) : Except String Unit × AppState × List Ev :=
  let errorMsg : Message :=
    { id := env.errorMsgId, role := Role.assistant, content := "Error: " ++ e,
      mode := mode, timestamp := env.now }
  let w := Ev.updateDocMessages docId (updatedMessages ++ [errorMsg])
  if collab.storeOk then (Except.ok (), { s with isLoading := false }, tr ++ [w])
  else (Except.error collab.storeErr, { s with isLoading := false }, tr ++ [w])

/-- handleSendMessage of the cloud-collaboration variant.  Mirrors the
source: early return without a user; optimistic append of the user message;
an unguarded `await updateDoc({ messages: updatedMessages })` whose rejection
escapes; then the try block with the image branch (one generateMovaImage
call, one updateDoc, no local setSession) or the streaming branch (placeholder
insertion, the for-await loop of chunkStep, one final updateDoc to the
captured docRef); generation or stream errors reach the catch block.
setPendingRefinement is UI-only and omitted; resetAt threads the single
modelled interleaving (a resetSession between two chunk arrivals). -/
def handleSendMessage (env : GenEnv) (collab : Collab) (text : String)
    (attachment : Option Attachment) (resetAt : Option (Nat × String))
    (s0 : AppState) : Except String Unit × AppState × List Ev :=
  if !env.userPresent then (Except.ok (), s0, [])
  else
    let mode := s0.session.currentMode
    let docId := s0.session.id
    let userMessage := mkUserMessage env text attachment mode
    let updatedMessages := s0.session.messages ++ [userMessage]
    let s1 := { s0 with session := { s0.session with messages := updatedMessages } }
    let w1 := Ev.updateDocMessages docId updatedMessages
    if !collab.storeOk then (Except.error collab.storeErr, s1, [w1])
    else
      let s2 := { s1 with isLoading := true }
      if mode == CreativeMode.IMAGE_PROMPT || attachment.isSome then
        match collab.imageResult with
        | Except.ok r =>
          let assistantMsg : Message :=
            { id := env.assistantId, role := Role.assistant,
              content := jsOr r.textContent "Refinement complete.",
              mode := mode, timestamp := env.now, imageUrl := r.imageUrl }
          let finalMessages := updatedMessages ++ [assistantMsg]
          (Except.ok (), { s2 with isLoading := false },
            [w1, Ev.updateDocMessages docId finalMessages])
        | Except.error e => catchBlock env collab mode docId updatedMessages [w1] e s2
      else
        match collab.streamInit with
        | Except.error e => catchBlock env collab mode docId updatedMessages [w1] e s2
        | Except.ok _ =>
          let streamingMessages := updatedMessages ++ [mkPlaceholder env mode]
          let s3 := { s2 with session := { s2.session with messages := streamingMessages } }
          let r := runChunks env.assistantId resetAt 0 "" collab.chunks s3
          match collab.streamErr with
          | some e => catchBlock env collab mode docId updatedMessages [w1] e r.2
          | none =>
            let finalAssistantMsg : Message :=
              { id := env.assistantId, role := Role.assistant, content := r.1,
                mode := mode, timestamp := env.now }
            (Except.ok (), { r.2 with isLoading := false },
              [w1, Ev.updateDocMessages docId (updatedMessages ++ [finalAssistantMsg])])

/-- App.tsx (local variant): `isDocMode = currentMode === SCRIPT || currentMode === STORY`. -/
def isDocMode (m : CreativeMode) : Bool :=
  m == CreativeMode.SCRIPT || m == CreativeMode.STORY

/-- App.tsx (local variant): the setSession updater run per streamed chunk.
It rewrites the placeholder's content to the accumulated text and, in doc
mode with more than 50 accumulated characters, overwrites canvasContent
with the whole accumulated content; otherwise the canvas is untouched. -/
def chunkStepLocal (docMode : Bool) (aid acc : String) (c : ChatSession) : ChatSession :=
  let updatedMessages := c.messages.map (fun m =>
    if m.id == aid then { m with content := acc } else m)
  let updatedCanvas := if docMode && decide (50 < acc.length) then acc else c.canvasContent
  { c with messages := updatedMessages, canvasContent := updatedCanvas }

/-- State of the CreativeCanvas editor: the locally mirrored text and the
pending debounce timer (the value its callback will publish, none when no
timer is scheduled). -/
structure CanvasState where
  localContent : String
  pendingTimer : Option String
deriving DecidableEq

/-- Observable editor events: a keystroke reaching handleTextChange, or a
scheduled debounce timer firing.  A publish before the quiet interval
elapses is modelled by placing it before the timerFire event. -/
inductive CanvasEv where
  | publish (text : String)
  | timerFire
deriving DecidableEq

/-- handleTextChange and its timer: a publish updates localContent and
replaces (clearTimeout + setTimeout) the pending timer with the new value;
a firing timer emits exactly its captured value via onUpdate. -/
def canvasStep (s : CanvasState) : CanvasEv → CanvasState × List String
  | CanvasEv.publish t => ({ localContent := t, pendingTimer := some t }, [])
  | CanvasEv.timerFire =>
    match s.pendingTimer with
    | some t => ({ s with pendingTimer := none }, [t])
    | none => (s, [])

/-- Run a sequence of editor events, collecting every onUpdate emission. -/
def canvasRun (s : CanvasState) : List CanvasEv → CanvasState × List String
  | [] => (s, [])
  | e :: rest =>
    let r := canvasStep s e
    let r2 := canvasRun r.1 rest
    (r2.1, r.2 ++ r2.2)

/-- Proper-prefix test on strings (over their character lists). -/
def strictPrefixB (a b : String) : Bool :=
  a.data.isPrefixOf b.data && !(a.data == b.data)

/-- Content of the message with the given id in the component state. -/
def placeholderContent (aid : String) (s : AppState) : Option String :=
  (s.session.messages.find? (fun m => m.id == aid)).map (fun m => m.content)

/-- Which generation-collaborator failure (if any) a handleSendMessage call
hits: in the image branch a generateMovaImage rejection, otherwise a
streamMovaContent rejection or the stream erroring after its chunks. -/
def genFailure (imageBranch : Bool) (collab : Collab) : Option String :=
  if imageBranch then
    match collab.imageResult with
    | Except.error e => some e
    | Except.ok _ => none
  else
    match collab.streamInit with
    | Except.error e => some e
    | Except.ok _ => collab.streamErr

/-- A signed-in environment with fixed fresh ids. -/
def envEx : GenEnv :=
  { userPresent := true, userMsgId := "u1", assistantId := "a1",
    errorMsgId := "e1", now := 0 }

/-- A fresh session in its initial component state. -/
def sEx : AppState :=
  { session := { id := "s1", title := "New Creative Session", messages := [],
                 currentMode := CreativeMode.GENERAL, canvasContent := "" },
    syncStatus := SyncStatus.idle, skipNextSyncRef := false, isLoading := false }

/-- Healthy collaborators: store writes succeed, the stream yields two
chunks and ends cleanly. -/
def collabOk : Collab :=
  { storeOk := true, storeErr := "store write failed",
    imageResult := Except.ok { imageUrl := some "img", textContent := "done" },
    streamInit := Except.ok (), chunks := ["Hello", " world"], streamErr := none }

/-- Collaborators whose store rejects every write. -/
def collabStoreFail : Collab := { collabOk with storeOk := false }

/-- Collaborators whose streamMovaContent call rejects. -/
def collabGenFail : Collab := { collabOk with streamInit := Except.error "boom" }

/-- Component state just after the streaming placeholder has been inserted
(one human message followed by the empty placeholder). -/
def sC5 : AppState :=
  { session := { id := "s1", title := "New Creative Session",
                 messages := [mkUserMessage envEx "write" none CreativeMode.GENERAL,
                              mkPlaceholder envEx CreativeMode.GENERAL],
                 currentMode := CreativeMode.GENERAL, canvasContent := "" },
    syncStatus := SyncStatus.idle, skipNextSyncRef := false, isLoading := true }

/-- A remote snapshot that carries only a message list (title, mode and
canvas content absent). -/
def dC9 : SnapshotData :=
  { title := none, currentMode := none, canvasContent := none,
    messages := [mkUserMessage envEx "remote change" none CreativeMode.GENERAL] }

/-- A session sitting in SCRIPT mode with existing canvas content. -/
def sessScript : ChatSession :=
  { id := "s1", title := "T", messages := [], currentMode := CreativeMode.SCRIPT,
    canvasContent := "doc" }

theorem runChunks_nil (aid : String) (rs : Option (Nat × String)) (i : Nat)
    (acc : String) (s : AppState) : runChunks aid rs i acc [] s = (acc, s) := by
  rcases rs with _ | ⟨k, nid⟩ <;> rfl

theorem runChunks_cons_none (aid : String) (i : Nat) (acc c : String)
    (rest : List String) (s : AppState) :
    runChunks aid none i acc (c :: rest) s =
    runChunks aid none (i + 1) (acc ++ c) rest (chunkStep aid (acc ++ c) s) := by
  simp [runChunks]

theorem runChunks_cons_hit (aid : String) (k : Nat) (nid acc c : String)
    (rest : List String) (s : AppState) :
    runChunks aid (some (k, nid)) k acc (c :: rest) s =
    runChunks aid none (k + 1) (acc ++ c) rest
      (chunkStep aid (acc ++ c) (resetSession nid s)) := by
  simp [runChunks]

theorem runChunks_cons_miss (aid : String) (k : Nat) (nid : String) (i : Nat)
    (acc c : String) (rest : List String) (s : AppState) (h : i ≠ k) :
    runChunks aid (some (k, nid)) i acc (c :: rest) s =
    runChunks aid (some (k, nid)) (i + 1) (acc ++ c) rest
      (chunkStep aid (acc ++ c) s) := by
  simp [runChunks, h]

/-- The accumulator at stream exhaustion is the concatenation of every
chunk onto the starting content, resets notwithstanding. -/
theorem runChunks_fst (aid : String) : ∀ (chunks : List String)
    (rs : Option (Nat × String)) (i : Nat) (acc : String) (s : AppState),
    (runChunks aid rs i acc chunks s).1 = chunks.foldl (fun a c => a ++ c) acc := by
  intro chunks
  induction chunks with
  | nil => intro rs i acc s; rw [runChunks_nil]; rfl
  | cons c rest ih =>
    intro rs i acc s
    rcases rs with _ | ⟨k, nid⟩
    · rw [runChunks_cons_none, ih]; rfl
    · by_cases h : i = k
      · subst h; rw [runChunks_cons_hit, ih]; rfl
      · rw [runChunks_cons_miss _ _ _ _ _ _ _ _ h, ih]; rfl

theorem chunkStep_id (aid content : String) (s : AppState) :
    (chunkStep aid content s).session.id = s.session.id := rfl

/-- Without a pending reset, the chunk loop preserves the session id and an
empty transcript (a per-chunk map over no messages is a no-op). -/
theorem runChunks_none_inv (aid : String) : ∀ (chunks : List String) (i : Nat)
    (acc : String) (s : AppState), s.session.messages = [] →
    (runChunks aid none i acc chunks s).2.session.id = s.session.id ∧
    (runChunks aid none i acc chunks s).2.session.messages = [] := by
  intro chunks
  induction chunks with
  | nil => intro i acc s h; rw [runChunks_nil]; exact ⟨rfl, h⟩
  | cons c rest ih =>
    intro i acc s h
    rw [runChunks_cons_none]
    have h1 : (chunkStep aid (acc ++ c) s).session.messages = [] := by
      simp [chunkStep, h]
    obtain ⟨ha, hb⟩ := ih (i + 1) (acc ++ c) (chunkStep aid (acc ++ c) s) h1
    exact ⟨ha.trans (chunkStep_id aid (acc ++ c) s), hb⟩

/-- If a reset fires at some point during the stream, the loop ends on the
fresh session id with an empty transcript: the later chunk updates find no
message with the placeholder's id. -/
theorem runChunks_reset_inv (aid nid : String) (k : Nat) : ∀ (chunks : List String)
    (i : Nat) (acc : String) (s : AppState), i ≤ k → k < i + chunks.length →
    (runChunks aid (some (k, nid)) i acc chunks s).2.session.id = nid ∧
    (runChunks aid (some (k, nid)) i acc chunks s).2.session.messages = [] := by
  intro chunks
  induction chunks with
  | nil => intro i acc s h1 h2; simp at h2; omega
  | cons c rest ih =>
    intro i acc s h1 h2
    by_cases h : i = k
    · subst h
      rw [runChunks_cons_hit]
      have hm : (chunkStep aid (acc ++ c) (resetSession nid s)).session.messages = [] := by
        simp [chunkStep, resetSession]
      have hi : (chunkStep aid (acc ++ c) (resetSession nid s)).session.id = nid := by
        simp [chunkStep, resetSession]
      obtain ⟨ha, hb⟩ := runChunks_none_inv aid rest (i + 1) (acc ++ c) _ hm
      exact ⟨ha.trans hi, hb⟩
    · have h1a : i + 1 ≤ k := by omega
      have h2a : k < (i + 1) + rest.length := by
        simp at h2; omega
      rw [runChunks_cons_miss _ _ _ _ _ _ _ _ h]
      exact ih (i + 1) (acc ++ c) _ h1a h2a

/-- Claim C1: after a single arm of the Echo Suppression Guard, the first
consume (the read-and-clear done by the remote notification handler)
returns true, and a second consume without an intervening re-arm returns
false — each arm suppresses exactly one subsequent notification. -/
theorem claim_C1 (s : AppState) :
    (consumeGuard (armGuard s)).1 = true ∧
    (consumeGuard (consumeGuard (armGuard s)).2).1 = false := by
  simp [armGuard, consumeGuard]

/-- Claim C2, counterexample: with the Echo Suppression Flag set and Sync
Status idle, an existing-document notification is discarded (Session State
unchanged) and yet Sync Status is still marked synced, because
setSyncStatus runs unconditionally outside the setSession updater.  This
falsifies the claim that synced is marked exactly when the patch is
applied. -/
theorem claim_C2_counterexample :
    ¬ ((applySnapshotExists
          { title := some "Remote", currentMode := some CreativeMode.SONG,
            canvasContent := some "doc", messages := [] }
          { sEx with skipNextSyncRef := true }).session =
            ({ sEx with skipNextSyncRef := true } : AppState).session →
        (applySnapshotExists
          { title := some "Remote", currentMode := some CreativeMode.SONG,
            canvasContent := some "doc", messages := [] }
          { sEx with skipNextSyncRef := true }).syncStatus ≠ SyncStatus.synced) := by
  decide

/-- Claim C2, amended: on every notification for an existing session
document, if the Echo Suppression Flag is set the handler clears it and
discards the patch, otherwise it applies the patch; Sync Status is marked
synced in both cases (not only when the patch is applied). -/
theorem claim_C2_amended (d : SnapshotData) (s : AppState) :
    (applySnapshotExists d s).syncStatus = SyncStatus.synced ∧
    (applySnapshotExists d s).skipNextSyncRef = false ∧
    (applySnapshotExists d s).session =
      (if s.skipNextSyncRef then s.session else mergeSnapshot d s.session) := by
  cases hb : s.skipNextSyncRef <;> simp [applySnapshotExists, consumeGuard, hb]

/-- Claim C3, counterexample: a plain sendMessage (GENERAL mode, healthy
collaborators) issues two transcript write-throughs and never arms the
guard, so its trace has a store write with no preceding arm — refuting
"there is no local write-through that reaches the store without a
preceding arm". -/
theorem claim_C3_counterexample :
    (handleSendMessage envEx collabOk "hello" none none sEx).2.2 =
      [Ev.updateDocMessages "s1" [mkUserMessage envEx "hello" none CreativeMode.GENERAL],
       Ev.updateDocMessages "s1" [mkUserMessage envEx "hello" none CreativeMode.GENERAL,
         { id := "a1", role := Role.assistant, content := "Hello world",
           mode := CreativeMode.GENERAL, timestamp := 0 }]] ∧
    writesArmedB false (handleSendMessage envEx collabOk "hello" none none sEx).2.2 = false := by
  decide

/-- Claim C3, amended: only the canvas publish path (syncCanvasToCloud,
reached through the Debounced Document Publisher) arms the Echo Suppression
Guard before its write; the transcript write-throughs of sendMessage and
the mode write-through of switchMode are issued with no preceding arm. -/
theorem claim_C3_amended :
    (∀ (u st : Bool) (c : String) (s : AppState),
      writesArmedB false (syncCanvasToCloud u st c s).2 = true) ∧
    (∀ (env : GenEnv) (collab : Collab) (text : String) (att : Option Attachment)
        (rs : Option (Nat × String)) (s : AppState), env.userPresent = true →
      writesArmedB false (handleSendMessage env collab text att rs s).2.2 = false) ∧
    (∀ (st : Bool) (er : String) (m : CreativeMode) (s : AppState),
      writesArmedB false (switchMode true st er m s).2.2 = false) := by
  refine ⟨?_, ?_, ?_⟩
  · intro u st c s
    cases hc : (!u || s.session.id == "") <;> cases st <;>
      simp [syncCanvasToCloud, hc, writesArmedB, Ev.isWrite]
  · intro env collab text att rs s hu
    cases hso : collab.storeOk
    · simp [handleSendMessage, hu, hso, writesArmedB, Ev.isWrite]
    · cases hbr : (s.session.currentMode == CreativeMode.IMAGE_PROMPT || att.isSome)
      · rcases hsi : collab.streamInit with e | u'
        · simp [handleSendMessage, hu, hso, hbr, hsi, catchBlock, writesArmedB, Ev.isWrite]
        · rcases hse : collab.streamErr with _ | e
          · simp [handleSendMessage, hu, hso, hbr, hsi, hse, writesArmedB, Ev.isWrite]
          · simp [handleSendMessage, hu, hso, hbr, hsi, hse, catchBlock, writesArmedB, Ev.isWrite]
      · rcases hir : collab.imageResult with e | r <;>
          simp [handleSendMessage, hu, hso, hbr, hir, catchBlock, writesArmedB, Ev.isWrite]
  · intro st er m s
    cases st <;> simp [switchMode, writesArmedB, Ev.isWrite]

/-- Claim C3 amended, witness: a concrete sendMessage run whose trace holds
an unarmed store write. -/
theorem claim_C3_amended_witness :
    envEx.userPresent = true ∧
    writesArmedB false (handleSendMessage envEx collabOk "hi" none none sEx).2.2 = false :=
  ⟨rfl, claim_C3_amended.2.1 envEx collabOk "hi" none none sEx rfl⟩

/-- Claim C4, counterexample: with chunks ["Hello", " world"] and a reset
injected between the two chunk arrivals, the loop still consumes the second
chunk and the final write-through is still issued (to the old session's
document, carrying the full "Hello world") — refuting "stops consuming
further chunks ... without performing its final write-through". -/
theorem claim_C4_counterexample :
    (handleSendMessage envEx collabOk "go" none (some (1, "s2")) sEx).2.1.session.id = "s2" ∧
    (handleSendMessage envEx collabOk "go" none (some (1, "s2")) sEx).2.1.session.messages = [] ∧
    (handleSendMessage envEx collabOk "go" none (some (1, "s2")) sEx).2.2 =
      [Ev.updateDocMessages "s1" [mkUserMessage envEx "go" none CreativeMode.GENERAL],
       Ev.updateDocMessages "s1" [mkUserMessage envEx "go" none CreativeMode.GENERAL,
         { id := "a1", role := Role.assistant, content := "Hello world",
           mode := CreativeMode.GENERAL, timestamp := 0 }]] := by
  decide

/-- Claim C4, amended: if reset() runs while the stream is being consumed,
the loop keeps consuming the remaining chunks (their per-chunk updates are
no-ops on the new empty transcript) and the final write-through is still
performed, addressed to the old session's captured document ref with the
fully accumulated content; the new Session created by the reset never
contains any trace of the abandoned placeholder Message in its transcript,
and sendMessage resolves normally. -/
theorem claim_C4_amended (env : GenEnv) (collab : Collab) (text : String)
    (k : Nat) (nid : String) (s : AppState)
    (hu : env.userPresent = true) (hst : collab.storeOk = true)
    (hbr : (s.session.currentMode == CreativeMode.IMAGE_PROMPT) = false)
    (hinit : collab.streamInit = Except.ok ()) (herr : collab.streamErr = none)
    (hk : k < collab.chunks.length) :
    (handleSendMessage env collab text none (some (k, nid)) s).1 = Except.ok () ∧
    (handleSendMessage env collab text none (some (k, nid)) s).2.1.session.id = nid ∧
    (handleSendMessage env collab text none (some (k, nid)) s).2.1.session.messages = [] ∧
    (handleSendMessage env collab text none (some (k, nid)) s).2.2 =
      [Ev.updateDocMessages s.session.id
        (s.session.messages ++ [mkUserMessage env text none s.session.currentMode]),
       Ev.updateDocMessages s.session.id
        (s.session.messages ++ [mkUserMessage env text none s.session.currentMode] ++
          [{ id := env.assistantId, role := Role.assistant,
             content := collab.chunks.foldl (fun a c => a ++ c) "",
             mode := s.session.currentMode, timestamp := env.now }])] := by
  refine ⟨?_, ?_, ?_, ?_⟩ <;>
    simp [handleSendMessage, hu, hst, hbr, hinit, herr]
  · exact (runChunks_reset_inv _ _ _ _ _ _ _ (Nat.zero_le k) (by omega)).1
  · exact (runChunks_reset_inv _ _ _ _ _ _ _ (Nat.zero_le k) (by omega)).2
  · rw [runChunks_fst]

/-- Claim C4 amended, witness: the concrete mid-stream reset run. -/
theorem claim_C4_amended_witness :
    1 < collabOk.chunks.length ∧
    (handleSendMessage envEx collabOk "go" none (some (1, "s2")) sEx).2.1.session.id = "s2" ∧
    (handleSendMessage envEx collabOk "go" none (some (1, "s2")) sEx).2.1.session.messages = [] :=
  ⟨by decide,
   (claim_C4_amended envEx collabOk "go" 1 "s2" sEx rfl rfl rfl rfl rfl (by decide)).2.1,
   (claim_C4_amended envEx collabOk "go" 1 "s2" sEx rfl rfl rfl rfl rfl (by decide)).2.2.1⟩

/-- Claim C5: feeding ["Hello", " world", "!"] to the streaming loop, the
placeholder Message's content after the chunks is exactly "Hello world!",
and each intermediate content properly extends the previous one (the empty
initial content included). -/
theorem claim_C5 :
    ((runChunksStates "a1" none 0 "" ["Hello", " world", "!"] sC5).map
      (fun p => placeholderContent "a1" p.2)) =
        [some "Hello", some "Hello world", some "Hello world!"] ∧
    (runChunks "a1" none 0 "" ["Hello", " world", "!"] sC5).1 = "Hello world!" ∧
    placeholderContent "a1" sC5 = some "" ∧
    strictPrefixB "" "Hello" = true ∧
    strictPrefixB "Hello" "Hello world" = true ∧
    strictPrefixB "Hello world" "Hello world!" = true := by
  decide

/-- Claim C6: publish("a"), publish("ab"), publish("abc") all within the
quiet interval (no timer firing in between) produce exactly one onUpdate
emission carrying "abc" — "a" and "ab" are never written through — and that
single emission, routed to syncCanvasToCloud, issues exactly one store
write carrying "abc". -/
theorem claim_C6 :
    (canvasRun { localContent := "", pendingTimer := none }
      [CanvasEv.publish "a", CanvasEv.publish "ab", CanvasEv.publish "abc",
       CanvasEv.timerFire, CanvasEv.timerFire]).2 = ["abc"] ∧
    (syncCanvasToCloud true true "abc" sEx).2 =
      [Ev.arm, Ev.updateDocCanvas "s1" "abc"] := by
  decide

/-- Claim C7: whenever the generation collaborator fails (generateMovaImage
rejects, streamMovaContent rejects, or the stream errors) and the store is
healthy, sendMessage resolves normally (the failure is not propagated) and
its final write-through appends an assistant-authored Message whose content
is the human-readable "Error: " description to the transcript. -/
theorem claim_C7 (env : GenEnv) (collab : Collab) (text : String)
    (att : Option Attachment) (rs : Option (Nat × String)) (s : AppState) (e : String)
    (hu : env.userPresent = true) (hst : collab.storeOk = true)
    (hgen : genFailure (s.session.currentMode == CreativeMode.IMAGE_PROMPT || att.isSome)
      collab = some e) :
    (handleSendMessage env collab text att rs s).1 = Except.ok () ∧
    (handleSendMessage env collab text att rs s).2.2 =
      [Ev.updateDocMessages s.session.id
        (s.session.messages ++ [mkUserMessage env text att s.session.currentMode]),
       Ev.updateDocMessages s.session.id
        (s.session.messages ++ [mkUserMessage env text att s.session.currentMode] ++
          [{ id := env.errorMsgId, role := Role.assistant, content := "Error: " ++ e,
             mode := s.session.currentMode, timestamp := env.now }])] := by
  cases hbr : (s.session.currentMode == CreativeMode.IMAGE_PROMPT || att.isSome)
  · rw [hbr] at hgen
    simp [genFailure] at hgen
    rcases hsi : collab.streamInit with e' | u'
    · rw [hsi] at hgen
      simp at hgen
      subst hgen
      constructor <;> simp [handleSendMessage, hu, hst, hbr, hsi, catchBlock]
    · rw [hsi] at hgen
      simp at hgen
      constructor <;> simp [handleSendMessage, hu, hst, hbr, hsi, hgen, catchBlock]
  · rw [hbr] at hgen
    simp [genFailure] at hgen
    rcases hir : collab.imageResult with e' | r
    · rw [hir] at hgen
      simp at hgen
      subst hgen
      constructor <;> simp [handleSendMessage, hu, hst, hbr, hir, catchBlock]
    · rw [hir] at hgen
      simp at hgen

/-- Claim C7, witness: a concrete run whose streamMovaContent call rejects
with "boom" still resolves normally. -/
theorem claim_C7_witness :
    genFailure (sEx.session.currentMode == CreativeMode.IMAGE_PROMPT ||
      (none : Option Attachment).isSome) collabGenFail = some "boom" ∧
    (handleSendMessage envEx collabGenFail "hi" none none sEx).1 = Except.ok () :=
  ⟨rfl, (claim_C7 envEx collabGenFail "hi" none none sEx "boom" rfl rfl rfl).1⟩

/-- Claim C8, counterexample: when the transcript-append updateDoc of
sendMessage fails, the returned promise rejects with the store error and
Sync Status is not reverted to idle (it stays synced here) — refuting
"the failure does not escape the pipeline ... for every write-through
issued by the core, including the transcript append in sendMessage". -/
theorem claim_C8_counterexample :
    (handleSendMessage envEx collabStoreFail "hi" none none
      { sEx with syncStatus := SyncStatus.synced }).1 =
        Except.error "store write failed" ∧
    (handleSendMessage envEx collabStoreFail "hi" none none
      { sEx with syncStatus := SyncStatus.synced }).2.1.syncStatus = SyncStatus.synced := by
  decide

/-- Claim C8, amended: a failing canvas write-through (syncCanvasToCloud)
is recovered by reverting Sync Status to idle with local Session State left
intact; but the unguarded transcript append in sendMessage propagates its
store failure to the caller, leaving the optimistic local append applied
and the rest of the component state uncorrupted. -/
theorem claim_C8_amended :
    (∀ (content : String) (s : AppState), (s.session.id == "") = false →
      (syncCanvasToCloud true false content s).1.syncStatus = SyncStatus.idle ∧
      (syncCanvasToCloud true false content s).1.session = s.session) ∧
    (∀ (env : GenEnv) (collab : Collab) (text : String) (att : Option Attachment)
        (rs : Option (Nat × String)) (s : AppState),
      env.userPresent = true → collab.storeOk = false →
      (handleSendMessage env collab text att rs s).1 = Except.error collab.storeErr ∧
      (handleSendMessage env collab text att rs s).2.1 =
        { s with session := { s.session with
            messages := s.session.messages ++
              [mkUserMessage env text att s.session.currentMode] } }) := by
  refine ⟨?_, ?_⟩
  · intro content s h
    simp [syncCanvasToCloud, h, armGuard]
  · intro env collab text att rs s hu hso
    simp [handleSendMessage, hu, hso]

/-- Claim C8 amended, witness: concrete failing canvas publish and failing
transcript append. -/
theorem claim_C8_amended_witness :
    (sEx.session.id == "") = false ∧
    (syncCanvasToCloud true false "text" sEx).1.syncStatus = SyncStatus.idle ∧
    (handleSendMessage envEx collabStoreFail "hi" none none sEx).1 =
      Except.error "store write failed" :=
  ⟨rfl, (claim_C8_amended.1 "text" sEx rfl).1,
   (claim_C8_amended.2 envEx collabStoreFail "hi" none none sEx rfl rfl).1⟩

/-- Claim C9: an applied remote notification replaces the transcript
wholesale with the snapshot's message list (locally-appended messages
absent from the snapshot are gone), while title, mode, and document fall
back to their previous local values when the snapshot omits them. -/
theorem claim_C9 (d : SnapshotData) (s : AppState) (h : s.skipNextSyncRef = false) :
    (applySnapshotExists d s).session.messages = d.messages ∧
    (∀ m : Message, m ∉ d.messages → m ∉ (applySnapshotExists d s).session.messages) ∧
    (d.title = none → (applySnapshotExists d s).session.title = s.session.title) ∧
    (d.currentMode = none →
      (applySnapshotExists d s).session.currentMode = s.session.currentMode) ∧
    (d.canvasContent = none →
      (applySnapshotExists d s).session.canvasContent = s.session.canvasContent) := by
  have hx : (applySnapshotExists d s).session = mergeSnapshot d s.session := by
    simp [applySnapshotExists, consumeGuard, h]
  rw [hx]
  refine ⟨rfl, fun m hm => by simpa [mergeSnapshot] using hm, ?_, ?_, ?_⟩
  · intro ht; simp [mergeSnapshot, ht, jsOrOpt]
  · intro hm; simp [mergeSnapshot, hm]
  · intro hc; simp [mergeSnapshot, hc]

/-- Claim C9, witness: a snapshot carrying only messages, applied with the
flag clear, replaces the transcript. -/
theorem claim_C9_witness :
    sEx.skipNextSyncRef = false ∧
    (applySnapshotExists dC9 sEx).session.messages = dC9.messages :=
  ⟨rfl, (claim_C9 dC9 sEx rfl).1⟩

/-- Claim C10: in the local variant, per streamed chunk in SCRIPT or STORY
mode, the accumulated assistant content overwrites canvasContent exactly
when it is longer than 50 characters; at 50 characters or fewer the canvas
is left unchanged. -/
theorem claim_C10 (c : ChatSession) (aid acc : String)
    (h : isDocMode c.currentMode = true) :
    (chunkStepLocal (isDocMode c.currentMode) aid acc c).canvasContent =
      if 50 < acc.length then acc else c.canvasContent := by
  by_cases hl : 50 < acc.length <;> simp [chunkStepLocal, h, hl]

/-- Claim C10, witness: in SCRIPT mode a 5-character accumulation leaves
the canvas alone. -/
theorem claim_C10_witness :
    isDocMode sessScript.currentMode = true ∧
    (chunkStepLocal (isDocMode sessScript.currentMode) "a1" "short" sessScript).canvasContent =
      (if 50 < ("short" : String).length then "short" else sessScript.canvasContent) :=
  ⟨rfl, claim_C10 sessScript "a1" "short" rfl⟩

end Mova
